import Mathlib

/-!
Verification of the `ChannelResponseFilter` engine of `mt_metadata`
(`mt_metadata/timeseries/filters/channel_response_filter.py`).

The engine composes a chain of filter stages into a total frequency-domain
response.  The five concrete filter-stage classes (pole-zero, coefficient,
time-delay, FIR, frequency-response-table) are not part of the analysed
sources; they are modelled from the spec's stage contract as records of
abstract behaviour functions.  numpy primitives that produce irrational
values (`np.abs` on complex numbers, `np.logspace`) are kept abstract in a
`NumpyEnv` parameter; all engine logic is embedded concretely over `ℚ`.

Python exceptions are modelled with `Except PyErr`; an operation that in
Python mutates the object is embedded as a function returning the new state
alongside the result.
-/

/-- A complex value with rational components, standing for one sample of a
stage's complex response. -/
structure CC where
  re : ℚ
  im : ℚ
  deriving DecidableEq, Repr

def CC.mul (a b : CC) : CC :=
  ⟨a.re * b.re - a.im * b.im, a.re * b.im + a.im * b.re⟩

instance : Mul CC := ⟨CC.mul⟩

/-- The complex unit, one entry of `np.ones`. -/
def cone : CC := ⟨1, 0⟩

/-- Python exceptions raised by the engine. -/
inductive PyErr where
  | typeError (msg : String)
  | valueError (msg : String)
  | indexError
  | attributeError
  deriving DecidableEq, Repr

/-- A numpy value that is either a scalar or a one-dimensional array. -/
inductive PyVal where
  | scalar (z : CC)
  | arr (l : List CC)
  deriving DecidableEq, Repr

/-- The argument a stage's `complex_response` receives from the engine:
`None`, a scalar frequency, or a frequency array. -/
inductive PyIn where
  | pnone
  | pscalar (q : ℚ)
  | parr (l : List ℚ)
  deriving DecidableEq, Repr

/-- A real-valued numpy result (scalar or array), as produced by
`np.round(np.abs(...))`. -/
inductive RVal where
  | rscalar (q : ℚ)
  | rarr (l : List ℚ)
  deriving DecidableEq, Repr

/-- The `type` tag of a filter stage; the closed set of the five recognized
variants. -/
inductive FType where
  | pole_zero
  | coefficient
  | time_delay
  | fir
  | frequency_response_table
  deriving DecidableEq, Repr

/-- Modelled from the spec: a filter-stage object.  The five concrete filter
classes are absent from the analysed sources, so a stage is a record of the
data attributes the engine reads (`name`, `type`, `units_in`, `units_out`,
`gain`, `delay`, `decimation_active`, `comments`) together with abstract
behaviour functions: `crP` is the stage's `complex_response` (over `None`, a
scalar, or an array), `pb` its `pass_band` returning the band's
`(min, max)` or `None`, and `has_pb` whether the attribute exists at all
(`hasattr(f, "pass_band")`). -/
structure Stage where
  name : String
  ftype : FType
  units_in : String
  units_out : String
  gain : ℚ
  delay : ℚ
  decimation_active : Bool
  comments : String
  has_pb : Bool
  crP : PyIn → PyVal
  pb : List ℚ → Option (ℚ × ℚ)

/-- A Python value as dispatched by the dynamic parts of the engine
(`_validate_filters_list`, the `frequencies` setter, `setattr` in
`__init__`). -/
inductive PyObj where
  | pyNone
  | pyNum (q : ℚ)
  | pyStr (s : String)
  | pyStage (f : Stage)
  | pyList (l : List PyObj)
  | pyOther (descr : String)

/-- The state of a `ChannelResponseFilter` instance: the validated chain
`_filters_list`, the stored grid `_frequencies`, the pinned
`_normalization_frequency`, and the plain (non-property) attributes the
object carries, as an association list.  The Python setter of
`normalization_frequency` stores its argument unvalidated; the model
restricts pinned values to `Option ℚ`, the only values the rest of the
engine can consume. -/
structure CRF where
  filters_list : List Stage
  frequencies : Option (List ℚ)
  _normalization_frequency : Option ℚ
  extra : List (String × PyObj)

/-- Abstract numpy primitives whose exact values are irrational or external:
complex magnitude, the default grid `np.logspace(-4, 4, 100)`, and the unit
registry `get_unit_object`. -/
structure NumpyEnv where
  npAbs : CC → ℚ
  logspace_m4_4_100 : List ℚ
  unitAbbrev : String → String
  unitName : String → String

/-- `np.round` rounds half to even; `roundHalfEven q` is the integer
`np.round(q)`. -/
def roundHalfEven (q : ℚ) : ℤ :=
  let f := ⌊q⌋
  let frac := q - f
  if frac < 1 / 2 then f
  else if 1 / 2 < frac then f + 1
  else if f % 2 = 0 then f else f + 1

/-- `np.round(q, decimals=3)`. -/
def round3 (q : ℚ) : ℚ := (roundHalfEven (q * 1000) : ℚ) / 1000

/-- `non_delay_filters`: all stages whose `type` is not `"time delay"`.
This list comprehension builds a fresh list, unlike the `filters_list`
property which returns the stored list itself. -/
def CRF.non_delay_filters (s : CRF) : List Stage :=
  s.filters_list.filter fun x => x.ftype ≠ FType.time_delay

/-- `delay_filters`: all stages whose `type` is `"time delay"`. -/
def CRF.delay_filters (s : CRF) : List Stage :=
  s.filters_list.filter fun x => x.ftype = FType.time_delay

/-- `total_delay`: sum of `.delay` over the delay filters. -/
def CRF.total_delay (s : CRF) : ℚ :=
  s.delay_filters.foldl (fun acc f => acc + f.delay) 0

/-- numpy multiplication of two scalar-or-array operands, with length-1
broadcasting; mismatched lengths raise `ValueError`. -/
def npBinMul : PyVal → PyVal → Except PyErr PyVal
  | PyVal.scalar a, PyVal.scalar b => Except.ok (PyVal.scalar (a * b))
  | PyVal.scalar a, PyVal.arr l => Except.ok (PyVal.arr (l.map fun z => a * z))
  | PyVal.arr l, PyVal.scalar b => Except.ok (PyVal.arr (l.map fun z => z * b))
  | PyVal.arr l₁, PyVal.arr l₂ =>
    if l₁.length = l₂.length then Except.ok (PyVal.arr (List.zipWith (fun a b => a * b) l₁ l₂))
    else match l₁, l₂ with
      | [a], l₂ => Except.ok (PyVal.arr (l₂.map fun z => a * z))
      | l₁, [b] => Except.ok (PyVal.arr (l₁.map fun z => z * b))
      | _, _ => Except.error (PyErr.valueError "operands could not be broadcast together")

/-- `np.max(np.abs(v))`; `np.max` of an empty array raises `ValueError`. -/
def npMaxAbs (np : NumpyEnv) : PyVal → Except PyErr ℚ
  | PyVal.scalar z => Except.ok (np.npAbs z)
  | PyVal.arr [] => Except.error (PyErr.valueError "zero-size array to reduction operation maximum")
  | PyVal.arr (z :: rest) => Except.ok (rest.foldl (fun acc w => max acc (np.npAbs w)) (np.npAbs z))

/-- `result /= np.max(np.abs(result))`: elementwise division by the peak
magnitude. -/
def npNormalize (np : NumpyEnv) (v : PyVal) : Except PyErr PyVal :=
  match npMaxAbs np v with
  | Except.error e => Except.error e
  | Except.ok m =>
    match v with
    | PyVal.scalar z => Except.ok (PyVal.scalar ⟨z.re / m, z.im / m⟩)
    | PyVal.arr l => Except.ok (PyVal.arr (l.map fun z => ⟨z.re / m, z.im / m⟩))

/-- The working chain `complex_response` selects before evaluating: the full
chain when `include_delay`, else the non-delay stages; when
`include_decimation` is false the decimation-active stages are dropped as
well. -/
def workingChain (s : CRF) (include_delay include_decimation : Bool) : List Stage :=
  let fl := if include_delay then s.filters_list else s.non_delay_filters
  if include_decimation then fl else fl.filter fun x => !x.decimation_active

/-- `ChannelResponseFilter.complex_response`.  Returns the response together
with the state after the call.  Two state effects are embedded faithfully:
the stored grid is replaced when a `frequencies` argument is supplied, and —
because with `include_delay=True` (and no decimation rebinding) the local
`filters_list` is the stored list itself, which the `pop(0)` loop drains —
the stored chain is emptied in exactly that case.  The stages are evaluated
at the `frequencies` argument (which may be `None`), not at the stored
grid; the empty-chain branch `np.ones(len(frequencies))` likewise uses the
argument and raises `TypeError` when it is `None`. -/
def CRF.complex_response (np : NumpyEnv) (s : CRF) (freqsArg : Option (List ℚ))
    (include_delay : Bool := false) (normalize : Bool := false)
    (include_decimation : Bool := true) :
    Except PyErr PyVal × CRF :=
  let s := match freqsArg with
    | some fr => { s with frequencies := some fr }
    | none => s
  -- `filters_list = self.filters_list` aliases the stored list; the
  -- decimation comprehension rebinds the local name to a fresh list.
  let aliased := include_delay && include_decimation
  let working := workingChain s include_delay include_decimation
  match working with
  | [] =>
    match freqsArg with
    | some fr => (Except.ok (PyVal.arr (List.replicate fr.length cone)), s)
    | none => (Except.error (PyErr.typeError "object of type NoneType has no len"), s)
  | f0 :: rest =>
    let s' := if aliased then { s with filters_list := [] } else s
    let freqIn := match freqsArg with
      | some l => PyIn.parr l
      | none => PyIn.pnone
    let res := rest.foldlM (fun acc f => npBinMul acc (f.crP freqIn)) (f0.crP freqIn)
    match res with
    | Except.error e => (Except.error e, s')
    | Except.ok r =>
      if normalize then
        match npNormalize np r with
        | Except.error e => (Except.error e, s')
        | Except.ok r' => (Except.ok r', s')
      else (Except.ok r, s')

/-- `ChannelResponseFilter.pass_band`.  Raises `ValueError` when the stored
grid is `None`.  Collects `(f_pb.min(), f_pb.max())` for every stage that
has a `pass_band` attribute and returns a non-`None` band.  The source's
emptiness guard `if pb is not []` compares identities against a fresh list
literal and is therefore always true, so with no contributing stage the
code reaches `pb[:, 0]` on an empty array and raises `IndexError`; the
trailing `return None` is unreachable. -/
def CRF.pass_band (s : CRF) : Except PyErr (Option (ℚ × ℚ)) :=
  match s.frequencies with
  | none => Except.error
      (PyErr.valueError "frequencies are None, must be input to calculate pass band")
  | some freqs =>
    let pb := s.filters_list.filterMap fun f =>
      if f.has_pb then f.pb freqs else none
    match pb with
    | [] => Except.error PyErr.indexError
    | p :: rest =>
      Except.ok (some
        (rest.foldl (fun acc q => max acc q.1) p.1,
         rest.foldl (fun acc q => min acc q.2) p.2))

/-- The `normalization_frequency` property read: the pinned value when set;
otherwise derived from `pass_band` as `np.round(pass_band.mean(), 3)`.  The
`return None` branch is dead because `pass_band` never returns `None` (it
raises instead); errors from `pass_band` propagate. -/
def CRF.normalization_frequency_read (s : CRF) : Except PyErr (Option ℚ) :=
  match s._normalization_frequency with
  | some q => Except.ok (some q)
  | none =>
    match s.pass_band with
    | Except.error e => Except.error e
    | Except.ok (some (lo, hi)) => Except.ok (some (round3 ((lo + hi) / 2)))
    | Except.ok none => Except.ok none

/-- The re-pinning step of `compute_instrument_sensitivity`: when an
argument is given it is stored as the pinned normalization frequency. -/
def repinNF (s : CRF) : Option ℚ → CRF
  | some v => { s with _normalization_frequency := some v }
  | none => s

/-- The Python value `self.normalization_frequency` as passed to a stage's
`complex_response`: the number itself, or `None`. -/
def nfScalarIn : Option ℚ → PyIn
  | some q => PyIn.pscalar q
  | none => PyIn.pnone

/-- `compute_instrument_sensitivity`: optionally re-pins the normalization
frequency, reads the `normalization_frequency` property, evaluates every
stage's `complex_response` at that single value, accumulates
`sensitivity *= ...` starting from the scalar `1.0`, and finally tries
`sensitivity[0]` falling back to the whole value on `IndexError`/
`TypeError` before `np.round(np.abs(...), 3)`.  Indexing an empty array
falls back to the whole (empty) array, on which `np.round(np.abs(...))` is
elementwise. -/
def CRF.compute_instrument_sensitivity (np : NumpyEnv) (s : CRF)
    (normalization_frequency : Option ℚ := none) :
    Except PyErr RVal × CRF :=
  let s := repinNF s normalization_frequency
  match s.normalization_frequency_read with
  | Except.error e => (Except.error e, s)
  | Except.ok nf? =>
    let sens := s.filters_list.foldlM
      (fun acc f => npBinMul acc (f.crP (nfScalarIn nf?))) (PyVal.scalar cone)
    match sens with
    | Except.error e => (Except.error e, s)
    | Except.ok (PyVal.scalar z) => (Except.ok (RVal.rscalar (round3 (np.npAbs z))), s)
    | Except.ok (PyVal.arr (z :: _)) => (Except.ok (RVal.rscalar (round3 (np.npAbs z))), s)
    | Except.ok (PyVal.arr []) => (Except.ok (RVal.rarr []), s)

/-- `units_in`: the first stage's input units; `IndexError` on an empty
chain. -/
def CRF.units_in (s : CRF) : Except PyErr String :=
  match s.filters_list with
  | [] => Except.error PyErr.indexError
  | f :: _ => Except.ok f.units_in

/-- `units_out`: the last stage's output units; `IndexError` on an empty
chain. -/
def CRF.units_out (s : CRF) : Except PyErr String :=
  match s.filters_list with
  | [] => Except.error PyErr.indexError
  | f :: rest => Except.ok ((rest.getLastD f).units_out)

/-- The `ValueError` message of a unit mismatch, naming the two units and
the offending filter. -/
def unitMismatchMsg (previous_units : String) (f : Stage) : String :=
  "Unit consistency is incorrect,  " ++ previous_units ++ " != " ++ f.units_in
    ++ " For filter " ++ f.name

/-- `check_consistency_of_units`: seeds `previous_units` from
`filters_list[0]` — raising `IndexError` on an empty chain — then walks the
remaining stages, raising `ValueError` on the first adjacent mismatch and
returning `True` otherwise. -/
def CRF.check_consistency_of_units (s : CRF) : Except PyErr Bool :=
  match s.filters_list with
  | [] => Except.error PyErr.indexError
  | f0 :: rest => go f0.units_out rest
where
  go : String → List Stage → Except PyErr Bool
  | _, [] => Except.ok true
  | prev, f :: tl =>
    if f.units_in ≠ prev then Except.error (PyErr.valueError (unitMismatchMsg prev f))
    else go f.units_out tl

/-- The Python type name used in the validation error messages. -/
def PyObj.typeName : PyObj → String
  | PyObj.pyNone => "<class 'NoneType'>"
  | PyObj.pyNum _ => "<class 'float'>"
  | PyObj.pyStr _ => "<class 'str'>"
  | PyObj.pyStage _ => "<class 'mt_metadata.timeseries.filters.Filter'>"
  | PyObj.pyList _ => "<class 'list'>"
  | PyObj.pyOther d => d

/-- `isinstance(item, tuple(ACCEPTABLE_FILTERS))`: the item is one of the
five recognized filter variants. -/
def isAcceptableFilter : PyObj → Bool
  | PyObj.pyStage _ => true
  | _ => false

def asStage : PyObj → Option Stage
  | PyObj.pyStage f => some f
  | _ => none

/-- `_validate_filters_list`: `None` and `[]` normalize to an empty chain,
non-list input raises `TypeError`, and a list is accepted only when every
element is a recognized filter variant — otherwise all failure messages are
joined into one `TypeError`. -/
def validate_filters_list (v : PyObj) : Except PyErr (List Stage) :=
  match v with
  | PyObj.pyNone => Except.ok []
  | PyObj.pyList [] => Except.ok []
  | PyObj.pyList items =>
    let fails := (items.filter fun x => !isAcceptableFilter x).map fun x =>
      "Item is not an acceptable filter type, " ++ x.typeName
    if fails = [] then Except.ok (items.filterMap asStage)
    else Except.error (PyErr.typeError (String.intercalate ", " fails))
  | other => Except.error
      (PyErr.typeError ("Input filters list must be a list not " ++ other.typeName))

/-- The `filters_list` setter: validate, then assign.  When validation
raises, the assignment never happens, so the state is returned unchanged
alongside the error. -/
def CRF.set_filters (s : CRF) (v : PyObj) : Except PyErr Unit × CRF :=
  match validate_filters_list v with
  | Except.ok l => (Except.ok (), { s with filters_list := l })
  | Except.error e => (Except.error e, s)

/-- The `frequencies` setter: `None` unsets the grid, a list/tuple/ndarray
is coerced with `np.array(value, dtype=float)` (raising `ValueError` on a
non-numeric element), and any other value raises `TypeError`. -/
def frequenciesSetter (v : PyObj) : Except PyErr (Option (List ℚ)) :=
  match v with
  | PyObj.pyNone => Except.ok none
  | PyObj.pyList items =>
    let nums := items.filterMap fun x =>
      match x with
      | PyObj.pyNum q => some q
      | _ => none
    if nums.length = items.length then Except.ok (some nums)
    else Except.error (PyErr.valueError "could not convert input to float array")
  | other => Except.error
      (PyErr.typeError ("input values must be an list, tuple, or np.ndarray, not " ++ other.typeName))

/-- The names of the read-only properties of `ChannelResponseFilter`:
`setattr` on any of these raises `AttributeError`. -/
def readonlyProperties : List String :=
  ["names", "pass_band", "non_delay_filters", "delay_filters", "total_delay",
   "units_in", "units_out", "check_consistency_of_units"]

/-- Every property name of the class: the three settable properties plus the
read-only ones. -/
def propertyNames : List String :=
  ["filters_list", "frequencies", "normalization_frequency"] ++ readonlyProperties

/-- Store a plain attribute, replacing an existing binding of the same
name. -/
def updateAttr : List (String × PyObj) → String → PyObj → List (String × PyObj)
  | [], k, v => [(k, v)]
  | p :: tl, k, v => if p.1 = k then (k, v) :: tl else p :: updateAttr tl k v

/-- Look up a binding in an attribute association list. -/
def lookupA (l : List (String × PyObj)) (k : String) : Option PyObj :=
  (l.find? fun p => p.1 = k).map Prod.snd

/-- Look up a plain attribute. -/
def lookupAttr (s : CRF) (k : String) : Option PyObj :=
  lookupA s.extra k

/-- `setattr(self, k, v)`: names of settable properties dispatch to their
setters, names of read-only properties raise `AttributeError`, and any
other name is stored as a plain attribute without validation.  The
`normalization_frequency` setter stores its value directly (model
restricted to `None` or a number, see `CRF`). -/
def CRF.setattrCRF (s : CRF) (k : String) (v : PyObj) : Except PyErr CRF :=
  if k = "filters_list" then
    match validate_filters_list v with
    | Except.ok l => Except.ok { s with filters_list := l }
    | Except.error e => Except.error e
  else if k = "frequencies" then
    match frequenciesSetter v with
    | Except.ok fr => Except.ok { s with frequencies := fr }
    | Except.error e => Except.error e
  else if k = "normalization_frequency" then
    match v with
    | PyObj.pyNone => Except.ok { s with _normalization_frequency := none }
    | PyObj.pyNum q => Except.ok { s with _normalization_frequency := some q }
    | _ => Except.ok s
  else if k ∈ readonlyProperties then
    Except.error PyErr.attributeError
  else
    Except.ok { s with extra := updateAttr s.extra k v }

/-- The state `__init__` builds before the keyword loop: empty chain, the
default grid `np.logspace(-4, 4, 100)`, no pinned normalization frequency,
and the `logger` plain attribute. -/
def initState (np : NumpyEnv) : CRF :=
  { filters_list := []
    frequencies := some np.logspace_m4_4_100
    _normalization_frequency := none
    extra := [("logger", PyObj.pyOther "<Logger>")] }

/-- `ChannelResponseFilter(**kwargs)`: after the default assignments, every
keyword is applied with `setattr(self, k, v)` in order. -/
def initCRF (np : NumpyEnv) (kwargs : List (String × PyObj)) : Except PyErr CRF :=
  kwargs.foldlM (fun s kv => s.setattrCRF kv.1 kv.2) (initState np)

/-- A freshly constructed `PoleZeroFilter()` before the promoted fields are
copied in: type `pole zero`, unit gain, empty metadata, and trivial
behaviour (a flat all-pass with no poles or zeros has unit response and no
pass-band restriction). -/
def defaultPoleZeroFilter : Stage :=
  { name := ""
    ftype := FType.pole_zero
    units_in := ""
    units_out := ""
    gain := 1
    delay := 0
    decimation_active := false
    comments := ""
    has_pb := true
    crP := fun v =>
      match v with
      | PyIn.parr l => PyVal.arr (List.replicate l.length cone)
      | _ => PyVal.scalar cone
    pb := fun _ => none }

/-- The promotion `to_obspy` applies to a coefficient stage with non-count
output units: a fresh `PoleZeroFilter` carrying the coefficient stage's
gain, units, comments and name. -/
def coefficientToPZ (f : Stage) : Stage :=
  { defaultPoleZeroFilter with
    gain := f.gain
    units_in := f.units_in
    units_out := f.units_out
    comments := f.comments
    name := f.name }

/-- One stage of the exported response.  Modelled from the spec: the
per-stage `to_obspy` conversion methods live in the missing filter classes;
per the spec each exported stage records its 1-based position, the shared
normalization frequency, and the shared sample rate; `source` retains the
stage object the record was produced from. -/
structure ResponseStage where
  stage_number : ℕ
  normalization_frequency : Option ℚ
  sample_rate : ℚ
  source : Stage

/-- Modelled from the spec: `f.to_obspy(stage_number=..,
normalization_frequency=.., sample_rate=..)` of a filter stage, producing
one external response-stage record. -/
def stageToObspy (f : Stage) (stage_number : ℕ)
    (normalization_frequency : Option ℚ) (sample_rate : ℚ) : ResponseStage :=
  { stage_number := stage_number
    normalization_frequency := normalization_frequency
    sample_rate := sample_rate
    source := f }

/-- The `InstrumentSensitivity` header of the exported response. -/
structure SensHeader where
  value : RVal
  frequency : Option ℚ
  input_units : String
  output_units : String
  input_units_description : String
  output_units_description : String

/-- The exported `obspy.core.inventory.Response`: the sensitivity header and
the ordered response stages. -/
structure ObspyResponse where
  instrument_sensitivity : SensHeader
  response_stages : List ResponseStage

/-- The per-stage conversion step of `to_obspy`: a coefficient stage whose
output units are not `"count"` is promoted to an equivalent pole-zero stage
first; every other stage is exported directly. -/
def exportStage (f : Stage) (ii : ℕ) (nf : Option ℚ) (sample_rate : ℚ) :
    ResponseStage :=
  if f.ftype = FType.coefficient then
    if f.units_out ≠ "count" then stageToObspy (coefficientToPZ f) ii nf sample_rate
    else stageToObspy f ii nf sample_rate
  else stageToObspy f ii nf sample_rate

/-- `ChannelResponseFilter.to_obspy(sample_rate=1)`: computes the total
sensitivity, resolves the chain's overall units through the unit registry,
reads the normalization frequency, and appends one converted record per
stage, numbered from 1.  Errors from the sensitivity computation, from
`units_in` on an empty chain, or from the normalization-frequency read
propagate.  The property reads repeated in the source (header and each
stage) are deterministic in the unchanged state, so the value is read
once and shared. -/
def CRF.to_obspy (np : NumpyEnv) (s : CRF) (sample_rate : ℚ := 1) :
    Except PyErr ObspyResponse :=
  match (s.compute_instrument_sensitivity np none).1 with
  | Except.error e => Except.error e
  | Except.ok total_sensitivity =>
    match s.units_in, s.units_out with
    | Except.error e, _ => Except.error e
    | _, Except.error e => Except.error e
    | Except.ok uin, Except.ok uout =>
      match s.normalization_frequency_read with
      | Except.error e => Except.error e
      | Except.ok nf? =>
        Except.ok
          { instrument_sensitivity :=
              { value := total_sensitivity
                frequency := nf?
                input_units := np.unitAbbrev uin
                output_units := np.unitAbbrev uout
                input_units_description := np.unitName uin
                output_units_description := np.unitName uout }
            response_stages :=
              s.filters_list.enum.map fun p => exportStage p.2 (p.1 + 1) nf? sample_rate }

/-- Spec-side reading of a stage's array response, defined for stages that
honour the contract of returning an array over an array input. -/
def stageArr (f : Stage) (freqs : List ℚ) : List CC :=
  match f.crP (PyIn.parr freqs) with
  | PyVal.arr l => l
  | PyVal.scalar z => [z]

/-- Spec-side elementwise product across a chain, in chain order, of each
stage's complex response at the frequency grid, starting from the unit
response. -/
def specProduct (working : List Stage) (freqs : List ℚ) : List CC :=
  working.foldl (fun acc f => List.zipWith (fun a b => a * b) acc (stageArr f freqs))
    (List.replicate freqs.length cone)

/-- Spec-side chain-order product of scalar per-stage responses. -/
def specScalarProduct (vals : List CC) : CC :=
  vals.foldl (fun acc z => acc * z) cone

/-- Spec-side adjacency condition of `check_consistency_of_units`: every
adjacent pair of stages has the first stage's output units equal to the
second stage's input units. -/
def chainConsistent : List Stage → Bool
  | [] => true
  | [_] => true
  | f :: g :: tl => (g.units_in = f.units_out) && chainConsistent (g :: tl)

/-! ## Concrete fixtures used by witnesses and counterexamples -/

/-- A concrete instantiation of the abstract numpy primitives, used to
evaluate witnesses. -/
def npFix : NumpyEnv :=
  { npAbs := fun z => |z.re| + |z.im|
    logspace_m4_4_100 := [1]
    unitAbbrev := fun u => u
    unitName := fun u => u }

/-- A minimal concrete coefficient-type stage with trivial behaviour. -/
def stubStage : Stage :=
  { name := "stub"
    ftype := FType.coefficient
    units_in := "V"
    units_out := "V"
    gain := 1
    delay := 0
    decimation_active := false
    comments := ""
    has_pb := false
    crP := fun _ => PyVal.scalar cone
    pb := fun _ => none }

/-- A stage whose response is the constant 2 on every grid point. -/
def stGain2 : Stage :=
  { stubStage with
    name := "g2"
    crP := fun v =>
      match v with
      | PyIn.parr l => PyVal.arr (l.map fun _ => ⟨2, 0⟩)
      | _ => PyVal.scalar ⟨2, 0⟩ }

/-- A one-stage engine with the grid `[1, 2]`. -/
def crfFix : CRF :=
  { filters_list := [stGain2]
    frequencies := some [1, 2]
    _normalization_frequency := none
    extra := [] }

/-- An engine with an empty chain and no grid. -/
def crfEmpty : CRF :=
  { filters_list := []
    frequencies := none
    _normalization_frequency := none
    extra := [] }

/-- An engine with an empty chain and the grid `[1, 2]`. -/
def crfEmptyGrid : CRF :=
  { crfEmpty with frequencies := some [1, 2] }

def pbA : Stage := { stubStage with name := "pbA", has_pb := true, pb := fun _ => some (1, 5) }

def pbSkip : Stage := { stubStage with name := "pbSkip", has_pb := true, pb := fun _ => none }

def pbB : Stage := { stubStage with name := "pbB", has_pb := true, pb := fun _ => some (2, 8) }

/-- An engine whose stages contribute the bands `(1, 5)` and `(2, 8)`, with
one stage contributing no band. -/
def crfPB : CRF :=
  { filters_list := [pbA, pbSkip, pbB]
    frequencies := some [1, 2]
    _normalization_frequency := none
    extra := [] }

/-- An engine with the grid set but no stage contributing a pass-band. -/
def crfNoPB : CRF :=
  { filters_list := [stubStage]
    frequencies := some [1]
    _normalization_frequency := none
    extra := [] }

/-- An engine with a pinned normalization frequency (and no grid, so any
derivation attempt would fail). -/
def crfPinned : CRF :=
  { crfEmpty with _normalization_frequency := some (7 / 2) }

/-- Spec-side recursion of the pairwise walk of
`check_consistency_of_units`: every stage's input units match the previous
stage's output units. -/
def unitsWalkOk (prev : String) : List Stage → Bool
  | [] => true
  | f :: tl => (f.units_in = prev) && unitsWalkOk f.units_out tl

def stU1 : Stage := { stubStage with name := "magnetometer", units_in := "V", units_out := "T" }

def stU2 : Stage := { stubStage with name := "digitizer", units_in := "T", units_out := "count" }

/-- A unit-consistent two-stage chain. -/
def crfUnits : CRF :=
  { filters_list := [stU1, stU2]
    frequencies := none
    _normalization_frequency := none
    extra := [] }

def stScalar2 : Stage := { stubStage with name := "s2", crP := fun _ => PyVal.scalar ⟨2, 0⟩ }

def stArr3 : Stage := { stubStage with name := "a3", crP := fun _ => PyVal.arr [⟨3, 0⟩] }

/-- A two-stage chain whose stages answer a scalar `2` and a one-element
array `[3]` at any single frequency. -/
def crfSens : CRF :=
  { filters_list := [stScalar2, stArr3]
    frequencies := none
    _normalization_frequency := none
    extra := [] }

def cCoefNC : Stage :=
  { stubStage with
    name := "cnc"
    ftype := FType.coefficient
    units_in := "A"
    units_out := "V"
    gain := 10
    comments := "cm" }

def cCoefC : Stage :=
  { stubStage with name := "cc", ftype := FType.coefficient, units_out := "count" }

def cPZst : Stage := { stubStage with name := "pz", ftype := FType.pole_zero }

/-- A three-stage chain — coefficient with non-count units, coefficient
with count units, pole-zero — with a pinned normalization frequency. -/
def crf7 : CRF :=
  { filters_list := [cCoefNC, cCoefC, cPZst]
    frequencies := none
    _normalization_frequency := some 2
    extra := [] }

/-! ## Theorems settling the claims -/

theorem cone_mul (z : CC) : cone * z = z := by
  show CC.mul cone z = z
  simp [CC.mul, cone]

/-- When `q * 1000` is exactly an integer, `np.round(q, 3)` returns `q`
itself (no tie to break). -/
theorem round3_exact (q : ℚ) (n : ℤ) (h : q * 1000 = (n : ℚ)) :
    round3 q = (n : ℚ) / 1000 := by
  unfold round3 roundHalfEven
  rw [h, Int.floor_intCast]
  norm_num

/-! ## Claim C2 -/

/-- C2: refuted on the code — with `include_delay=True` (and decimation
kept) the local working list of `complex_response` is the stored
`filters_list` itself, and the `pop(0)` evaluation loop drains it, so the
call empties the engine's stored chain; the claim's assertion that
`filters_list` is unchanged by every `complex_response` call fails.
Evaluated at a one-stage chain. -/
theorem c2_complex_response_drains_aliased_chain :
    ((crfFix.complex_response npFix (some [1]) true false true).2).filters_list = []
      ∧ crfFix.filters_list.length = 1 :=
  ⟨rfl, rfl⟩

/-! ## Claim C3 -/

/-- C3: the intersection arithmetic of `pass_band` is as claimed — on a
chain contributing the bands `(1, 5)` and `(2, 8)` (one stage contributing
none and being skipped) it returns `(max(1, 2), min(5, 8)) = (2, 5)` — but
on a chain with no contributing stage the always-true guard `pb is not []`
lets `pb[:, 0]` index an empty array, raising `IndexError` where the claim
(and the dead `return None`) say `None`. -/
theorem c3_pass_band_intersection_and_empty_bug :
    crfPB.pass_band = Except.ok (some (2, 5))
      ∧ crfNoPB.pass_band = Except.error PyErr.indexError :=
  ⟨rfl, rfl⟩

/-! ## Claim C9 -/

/-- C9: the pinned value wins and the derived value is the rounded mean of
`pass_band` — here `round((2 + 5) / 2, 3) = 3.5` — but in the "otherwise"
case the property does not return `None`: the `IndexError` from
`pass_band`'s dead emptiness guard propagates (the `return None` at the
end of the property is dead code). -/
theorem c9_normalization_frequency_read_cases :
    crfPinned.normalization_frequency_read = Except.ok (some (7 / 2))
      ∧ crfPB.normalization_frequency_read = Except.ok (some (7 / 2))
      ∧ crfNoPB.normalization_frequency_read = Except.error PyErr.indexError := by
  refine ⟨rfl, ?_, rfl⟩
  have h : crfPB.normalization_frequency_read = Except.ok (some (round3 ((2 + 5) / 2))) := rfl
  rw [h, round3_exact ((2 + 5) / 2) 3500 (by norm_num)]
  norm_num

/-! ## Claim C4 -/

/-- Replacing the stored grid does not change the selected working chain. -/
theorem workingChain_set_freq (s : CRF) (fr : Option (List ℚ)) (d dec : Bool) :
    workingChain { s with frequencies := fr } d dec = workingChain s d dec := rfl

/-- C4 (amended): when the selected working chain is empty,
`complex_response` returns `np.ones(len(frequencies))` of the *argument* —
an all-ones array of the supplied grid's length when a `frequencies`
argument is given, and a `TypeError` (`len(None)`) when the argument is
omitted — for every combination of the three flags. -/
theorem c4_empty_chain_response (np : NumpyEnv) (s : CRF) (freqsArg : Option (List ℚ))
    (include_delay normalize include_decimation : Bool)
    (hempty : workingChain s include_delay include_decimation = []) :
    (s.complex_response np freqsArg include_delay normalize include_decimation).1
      = match freqsArg with
        | some fr => Except.ok (PyVal.arr (List.replicate fr.length cone))
        | none => Except.error (PyErr.typeError "object of type NoneType has no len") := by
  cases freqsArg with
  | none => simp [CRF.complex_response, hempty]
  | some fr => simp [CRF.complex_response, workingChain_set_freq, hempty]

/-- C4 counterexample: on an empty chain with the stored grid `[1, 2]`, a
call without a `frequencies` argument raises `TypeError` instead of
returning the all-ones array of the frequency count. -/
theorem c4_counterexample_none_argument :
    (crfEmptyGrid.complex_response npFix none false false true).1
        = Except.error (PyErr.typeError "object of type NoneType has no len")
      ∧ (crfEmptyGrid.complex_response npFix none false false true).1
        ≠ Except.ok (PyVal.arr (List.replicate 2 cone)) := by
  refine ⟨rfl, fun h => ?_⟩
  exact Except.noConfusion h

/-- C4 witness: the amended theorem applied at an empty chain with the
supplied grid `[5, 6]` yields the all-ones array of length 2. -/
theorem c4_empty_chain_response_witness :
    (crfEmptyGrid.complex_response npFix (some [5, 6]) true true false).1
      = Except.ok (PyVal.arr (List.replicate 2 cone)) := by
  have h := c4_empty_chain_response npFix crfEmptyGrid (some [5, 6]) true true false rfl
  simpa using h

/-! ## Claim C5 -/

/-- The pairwise loop succeeds with `True` exactly when the walk condition
holds. -/
theorem go_ok_iff (prev : String) (l : List Stage) :
    CRF.check_consistency_of_units.go prev l = Except.ok true
      ↔ unitsWalkOk prev l = true := by
  induction l generalizing prev with
  | nil => simp [CRF.check_consistency_of_units.go, unitsWalkOk]
  | cons f tl ih =>
    by_cases h : f.units_in = prev
    · simp [CRF.check_consistency_of_units.go, unitsWalkOk, h, ih]
    · simp [CRF.check_consistency_of_units.go, unitsWalkOk, h]

/-- When the walk condition fails, the loop raises `ValueError` naming the
first offending filter and the two mismatched units. -/
theorem go_err (prev : String) (l : List Stage) (h : unitsWalkOk prev l = false) :
    ∃ p f, f ∈ l ∧ f.units_in ≠ p
      ∧ CRF.check_consistency_of_units.go prev l
          = Except.error (PyErr.valueError (unitMismatchMsg p f)) := by
  induction l generalizing prev with
  | nil => simp [unitsWalkOk] at h
  | cons f tl ih =>
    by_cases hf : f.units_in = prev
    · simp [unitsWalkOk, hf] at h
      obtain ⟨p, g, hmem, hne, heq⟩ := ih f.units_out h
      exact ⟨p, g, List.mem_cons_of_mem _ hmem, hne, by
        simpa [CRF.check_consistency_of_units.go, hf] using heq⟩
    · exact ⟨prev, f, List.mem_cons_self _ _, hf, by
        simp [CRF.check_consistency_of_units.go, hf]⟩

/-- The spec-side adjacency condition coincides with the walk seeded at the
first stage's output units. -/
theorem chainConsistent_eq_walk (f0 : Stage) (rest : List Stage) :
    chainConsistent (f0 :: rest) = unitsWalkOk f0.units_out rest := by
  induction rest generalizing f0 with
  | nil => simp [chainConsistent, unitsWalkOk]
  | cons g tl ih => simp [chainConsistent, unitsWalkOk, ih]

/-- C5 (amended): on a non-empty chain, `check_consistency_of_units`
returns `True` exactly when every adjacent pair of stages has the first
stage's `units_out` equal to the second stage's `units_in`, and on a
mismatch raises `ValueError` naming the offending filter and the two
mismatched units.  On an empty chain the claim fails: the seed read
`filters_list[0]` raises `IndexError` (see the counterexample). -/
theorem c5_check_consistency_amended (s : CRF) (f0 : Stage) (rest : List Stage)
    (hchain : s.filters_list = f0 :: rest) :
    (s.check_consistency_of_units = Except.ok true
        ↔ chainConsistent s.filters_list = true)
      ∧ (chainConsistent s.filters_list = false →
          ∃ p f, f ∈ rest ∧ f.units_in ≠ p
            ∧ s.check_consistency_of_units
                = Except.error (PyErr.valueError (unitMismatchMsg p f))) := by
  constructor
  · rw [show s.check_consistency_of_units
        = CRF.check_consistency_of_units.go f0.units_out rest by
      simp [CRF.check_consistency_of_units, hchain]]
    rw [hchain, chainConsistent_eq_walk]
    exact go_ok_iff _ _
  · intro hbad
    rw [hchain, chainConsistent_eq_walk] at hbad
    obtain ⟨p, f, hmem, hne, heq⟩ := go_err f0.units_out rest hbad
    exact ⟨p, f, hmem, hne, by
      simpa [CRF.check_consistency_of_units, hchain] using heq⟩

/-- C5 counterexample: on an empty chain, `check_consistency_of_units`
raises `IndexError` from `filters_list[0]` instead of returning `True`. -/
theorem c5_counterexample_empty_chain :
    crfEmpty.check_consistency_of_units = Except.error PyErr.indexError := rfl

/-- C5 witness: the amended theorem applied to a concrete consistent
two-stage chain returns `True`. -/
theorem c5_check_consistency_amended_witness :
    crfUnits.check_consistency_of_units = Except.ok true := by
  have h := (c5_check_consistency_amended crfUnits stU1 [stU2] rfl).1
  exact h.mpr rfl

/-! ## Claim C1 -/

/-- Unfolding one step of `foldlM` over `Except`. -/
theorem foldlM_cons_eq {α σ : Type} (g : σ → α → Except PyErr σ) (b : σ) (a : α)
    (l : List α) :
    List.foldlM g b (a :: l) = (g b a).bind fun s => List.foldlM g s l := rfl

/-- Multiplying the all-ones array into an equal-length array is the
identity. -/
theorem zipWith_replicate_cone (l : List CC) (n : ℕ) (h : l.length = n) :
    List.zipWith (fun a b => a * b) (List.replicate n cone) l = l := by
  induction l generalizing n with
  | nil => simp
  | cons z tl ih =>
    cases n with
    | zero => simp at h
    | succ m =>
      have hm : tl.length = m := by simpa using h
      simp [List.replicate_succ, cone_mul, ih m hm]

/-- Reading a stage's array response through `stageArr`. -/
theorem stageArr_of_arr (f : Stage) (freqs : List ℚ) (l : List CC)
    (h : f.crP (PyIn.parr freqs) = PyVal.arr l) : stageArr f freqs = l := by
  simp [stageArr, h]

/-- The elementwise accumulation preserves the grid length. -/
theorem foldl_zip_length (freqs : List ℚ) (W : List Stage) :
    ∀ acc : List CC, acc.length = freqs.length →
      (∀ f ∈ W, (stageArr f freqs).length = freqs.length) →
      (W.foldl (fun a f => List.zipWith (fun x y => x * y) a (stageArr f freqs)) acc).length
        = freqs.length := by
  induction W with
  | nil => intro acc hacc _; simpa using hacc
  | cons f tl ih =>
    intro acc hacc hW
    have hf : (stageArr f freqs).length = freqs.length := hW f (List.mem_cons_self _ _)
    refine ih _ ?_ fun g hg => hW g (List.mem_cons_of_mem _ hg)
    simp [hacc, hf]

/-- The imperative `pop`/`*=` loop equals the pure elementwise fold when
every stage honours the array contract at the grid. -/
theorem foldlM_npBinMul_arr (freqs : List ℚ) (rest : List Stage) :
    ∀ acc : List CC, acc.length = freqs.length →
      (∀ f ∈ rest, ∃ l, f.crP (PyIn.parr freqs) = PyVal.arr l ∧ l.length = freqs.length) →
      List.foldlM (fun a f => npBinMul a (f.crP (PyIn.parr freqs))) (PyVal.arr acc) rest
        = Except.ok (PyVal.arr (rest.foldl
            (fun a f => List.zipWith (fun x y => x * y) a (stageArr f freqs)) acc)) := by
  induction rest with
  | nil => intro acc _ _; rfl
  | cons f tl ih =>
    intro acc hacc hrest
    obtain ⟨l, hl, hlen⟩ := hrest f (List.mem_cons_self _ _)
    have hmul : npBinMul (PyVal.arr acc) (f.crP (PyIn.parr freqs))
        = Except.ok (PyVal.arr (List.zipWith (fun x y => x * y) acc l)) := by
      simp [npBinMul, hl, hacc, hlen]
    have hlen' : (List.zipWith (fun x y => x * y) acc l).length = freqs.length := by
      simp [hacc, hlen]
    calc List.foldlM (fun a f => npBinMul a (f.crP (PyIn.parr freqs))) (PyVal.arr acc) (f :: tl)
        = List.foldlM (fun a f => npBinMul a (f.crP (PyIn.parr freqs)))
            (PyVal.arr (List.zipWith (fun x y => x * y) acc l)) tl := by
          rw [foldlM_cons_eq, hmul]
          rfl
      _ = Except.ok (PyVal.arr ((f :: tl).foldl
            (fun a f => List.zipWith (fun x y => x * y) a (stageArr f freqs)) acc)) := by
          rw [ih _ hlen' fun g hg => hrest g (List.mem_cons_of_mem _ hg)]
          rw [List.foldl_cons, stageArr_of_arr f freqs l hl]

/-- C1: on a non-empty working chain whose stages each return an array of
the grid's length, `complex_response` (with a supplied grid and without
peak normalization) returns the elementwise product, in chain order, of
the per-stage responses at the grid, and that product has the grid's
length. -/
theorem c1_complex_response_product (np : NumpyEnv) (s : CRF) (freqs : List ℚ)
    (include_delay include_decimation : Bool) (f0 : Stage) (rest : List Stage)
    (hW : workingChain s include_delay include_decimation = f0 :: rest)
    (hlen : ∀ f ∈ workingChain s include_delay include_decimation,
      ∃ l, f.crP (PyIn.parr freqs) = PyVal.arr l ∧ l.length = freqs.length) :
    (s.complex_response np (some freqs) include_delay false include_decimation).1
        = Except.ok (PyVal.arr
            (specProduct (workingChain s include_delay include_decimation) freqs))
      ∧ (specProduct (workingChain s include_delay include_decimation) freqs).length
          = freqs.length := by
  obtain ⟨l0, hl0, hlen0⟩ := hlen f0 (by rw [hW]; exact List.mem_cons_self _ _)
  have hrest : ∀ f ∈ rest, ∃ l, f.crP (PyIn.parr freqs) = PyVal.arr l ∧ l.length = freqs.length :=
    fun f hf => hlen f (by rw [hW]; exact List.mem_cons_of_mem _ hf)
  have hstageLens : ∀ f ∈ workingChain s include_delay include_decimation,
      (stageArr f freqs).length = freqs.length := by
    intro f hf
    obtain ⟨l, hl, hll⟩ := hlen f hf
    rw [stageArr_of_arr f freqs l hl]; exact hll
  have hspec : specProduct (workingChain s include_delay include_decimation) freqs
      = rest.foldl (fun a f => List.zipWith (fun x y => x * y) a (stageArr f freqs)) l0 := by
    rw [hW]
    unfold specProduct
    rw [List.foldl_cons, stageArr_of_arr f0 freqs l0 hl0,
      zipWith_replicate_cone l0 freqs.length hlen0]
  constructor
  · have hW' : workingChain { s with frequencies := some freqs } include_delay
        include_decimation = f0 :: rest := hW
    have hfold := foldlM_npBinMul_arr freqs rest l0 hlen0 hrest
    unfold CRF.complex_response
    simp [hW', hl0, hfold, hspec]
  · rw [hspec]
    exact foldl_zip_length freqs rest l0 hlen0
      fun f hf => hstageLens f (by rw [hW]; exact List.mem_cons_of_mem _ hf)

/-- C1 witness: a one-stage chain with constant response 2 over the grid
`[1, 2]` yields the product `[2, 2]` of length 2. -/
theorem c1_complex_response_product_witness :
    (crfFix.complex_response npFix (some [1, 2]) false false true).1
        = Except.ok (PyVal.arr [⟨2, 0⟩, ⟨2, 0⟩])
      ∧ (specProduct (workingChain crfFix false true) [1, 2]).length = 2 := by
  have h := c1_complex_response_product npFix crfFix [1, 2] false true stGain2 [] rfl
    (by
      intro f hf
      rw [show workingChain crfFix false true = [stGain2] from rfl] at hf
      simp only [List.mem_singleton] at hf
      subst hf
      exact ⟨[⟨2, 0⟩, ⟨2, 0⟩], rfl, rfl⟩)
  have hsa : stageArr stGain2 [1, 2] = [⟨2, 0⟩, ⟨2, 0⟩] := rfl
  refine ⟨?_, by simpa using h.2⟩
  rw [h.1, show workingChain crfFix false true = [stGain2] from rfl]
  simp [specProduct, hsa, cone_mul]

/-! ## Claim C8 -/

/-- C8: `set_filters` normalizes `None` and `[]` to an empty chain, raises
`TypeError` on non-list non-`None` input and on any list containing an
element that is not one of the five recognized filter variants, accepts a
list of recognized filters wholesale, and leaves the stored chain unchanged
whenever it raises (all-or-nothing validation). -/
theorem c8_set_filters_validation (s : CRF) (v : PyObj) :
    ((v = PyObj.pyNone ∨ v = PyObj.pyList []) →
        s.set_filters v = (Except.ok (), { s with filters_list := [] }))
      ∧ ((∀ l, v ≠ PyObj.pyList l) → v ≠ PyObj.pyNone →
          ∃ m, s.set_filters v = (Except.error (PyErr.typeError m), s))
      ∧ (∀ items, v = PyObj.pyList items →
          ((∃ x ∈ items, isAcceptableFilter x = false) →
            ∃ m, s.set_filters v = (Except.error (PyErr.typeError m), s))
          ∧ ((∀ x ∈ items, isAcceptableFilter x = true) →
            s.set_filters v = (Except.ok (), { s with filters_list := items.filterMap asStage }))) := by
  refine ⟨?_, ?_, ?_⟩
  · rintro (rfl | rfl) <;> rfl
  · intro hnl hnn
    cases v with
    | pyNone => exact absurd rfl hnn
    | pyList l => exact absurd rfl (hnl l)
    | pyNum q => exact ⟨_, rfl⟩
    | pyStr t => exact ⟨_, rfl⟩
    | pyStage f => exact ⟨_, rfl⟩
    | pyOther d => exact ⟨_, rfl⟩
  · rintro items rfl
    constructor
    · rintro ⟨x, hx, hbad⟩
      cases items with
      | nil => cases hx
      | cons a tl =>
        have hmem : x ∈ (a :: tl).filter fun y => !isAcceptableFilter y :=
          List.mem_filter.mpr ⟨hx, by simp [hbad]⟩
        have hne : ((a :: tl).filter fun y => !isAcceptableFilter y) ≠ [] :=
          List.ne_nil_of_mem hmem
        refine ⟨String.intercalate ", " (((a :: tl).filter fun y => !isAcceptableFilter y).map
          fun x => "Item is not an acceptable filter type, " ++ x.typeName), ?_⟩
        simp only [CRF.set_filters, validate_filters_list]
        rw [if_neg (by simpa using hne)]
    · intro hall
      cases items with
      | nil => rfl
      | cons a tl =>
        have hfil : ((a :: tl).filter fun y => !isAcceptableFilter y) = [] :=
          List.filter_eq_nil_iff.mpr fun y hy => by simp [hall y hy]
        simp only [CRF.set_filters, validate_filters_list]
        rw [if_pos (by simp [hfil])]

/-- C8 witness: setting a singleton list holding a recognized filter stores
exactly that stage. -/
theorem c8_set_filters_validation_witness :
    crfEmpty.set_filters (PyObj.pyList [PyObj.pyStage stubStage])
      = (Except.ok (), { crfEmpty with filters_list := [stubStage] }) := by
  have h := (c8_set_filters_validation crfEmpty
      (PyObj.pyList [PyObj.pyStage stubStage])).2.2 [PyObj.pyStage stubStage] rfl
  have h2 := h.2 (by
    intro x hx
    simp only [List.mem_singleton] at hx
    subst hx
    rfl)
  simpa [asStage] using h2

/-! ## Claim C6 -/

theorem CC.mul_mk (a b c d : ℚ) :
    (⟨a, b⟩ : CC) * ⟨c, d⟩ = ⟨a * c - b * d, a * d + b * c⟩ := rfl

theorem repinNF_filters (s : CRF) (o : Option ℚ) :
    (repinNF s o).filters_list = s.filters_list := by
  cases o <;> rfl

/-- The `sensitivity *= ...` loop stays a scalar or a one-element array and
accumulates the plain product of the per-stage values, whatever mix of
scalars and singleton arrays the stages return. -/
theorem foldlM_npBinMul_scalar (nfIn : PyIn) (stages : List Stage) (vals : List CC)
    (hstages : List.Forall₂ (fun f z =>
      f.crP nfIn = PyVal.scalar z ∨ f.crP nfIn = PyVal.arr [z]) stages vals) :
    ∀ (acc : PyVal) (a : CC), (acc = PyVal.scalar a ∨ acc = PyVal.arr [a]) →
      ∃ r, List.foldlM (fun x f => npBinMul x (f.crP nfIn)) acc stages = Except.ok r
        ∧ (r = PyVal.scalar (vals.foldl (fun x z => x * z) a)
            ∨ r = PyVal.arr [vals.foldl (fun x z => x * z) a]) := by
  induction hstages with
  | nil =>
    intro acc a hacc
    exact ⟨acc, rfl, by simpa using hacc⟩
  | cons hf hrest ih =>
    intro acc a hacc
    rename_i f z stages' vals'
    have hstep : npBinMul acc (f.crP nfIn) = Except.ok (PyVal.scalar (a * z))
        ∨ npBinMul acc (f.crP nfIn) = Except.ok (PyVal.arr [a * z]) := by
      rcases hacc with rfl | rfl <;> rcases hf with hf | hf <;> simp [npBinMul, hf]
    rcases hstep with h | h
    · obtain ⟨r, hr, hcase⟩ := ih (PyVal.scalar (a * z)) (a * z) (Or.inl rfl)
      refine ⟨r, ?_, by simpa using hcase⟩
      rw [foldlM_cons_eq, h]
      exact hr
    · obtain ⟨r, hr, hcase⟩ := ih (PyVal.arr [a * z]) (a * z) (Or.inr rfl)
      refine ⟨r, ?_, by simpa using hcase⟩
      rw [foldlM_cons_eq, h]
      exact hr

/-- C6: when the (optionally re-pinned) normalization-frequency read
succeeds and every stage returns a scalar or a one-element array at that
single frequency, `compute_instrument_sensitivity` returns the magnitude of
the chain-order product of the per-stage responses, rounded to 3
decimals. -/
theorem c6_compute_instrument_sensitivity (np : NumpyEnv) (s : CRF) (nfArg : Option ℚ)
    (nf? : Option ℚ) (vals : List CC)
    (hread : (repinNF s nfArg).normalization_frequency_read = Except.ok nf?)
    (hstages : List.Forall₂ (fun f z =>
        f.crP (nfScalarIn nf?) = PyVal.scalar z ∨ f.crP (nfScalarIn nf?) = PyVal.arr [z])
      s.filters_list vals) :
    (s.compute_instrument_sensitivity np nfArg).1
      = Except.ok (RVal.rscalar (round3 (np.npAbs (specScalarProduct vals)))) := by
  obtain ⟨r, hr, hcase⟩ := foldlM_npBinMul_scalar (nfScalarIn nf?) s.filters_list vals
    hstages (PyVal.scalar cone) cone (Or.inl rfl)
  unfold CRF.compute_instrument_sensitivity
  simp only [hread, repinNF_filters]
  rw [show s.filters_list.foldlM
      (fun acc f => npBinMul acc (f.crP (nfScalarIn nf?))) (PyVal.scalar cone)
    = Except.ok r from hr]
  rcases hcase with rfl | rfl <;> simp [specScalarProduct]

/-- C6 witness: a scalar-returning stage of value 2 composed with a
singleton-array-returning stage of value 3, evaluated at the re-pinned
normalization frequency 1, gives sensitivity 6.000. -/
theorem c6_compute_instrument_sensitivity_witness :
    (crfSens.compute_instrument_sensitivity npFix (some 1)).1
      = Except.ok (RVal.rscalar 6) := by
  have h := c6_compute_instrument_sensitivity npFix crfSens (some 1) (some 1)
    [⟨2, 0⟩, ⟨3, 0⟩] rfl
    (List.Forall₂.cons (Or.inl rfl) (List.Forall₂.cons (Or.inr rfl) List.Forall₂.nil))
  rw [h]
  have h1 : specScalarProduct [⟨2, 0⟩, ⟨3, 0⟩] = ⟨6, 0⟩ := by
    simp only [specScalarProduct, List.foldl_cons, List.foldl_nil, cone_mul, CC.mul_mk]
    norm_num
  rw [h1]
  have h2 : npFix.npAbs ⟨6, 0⟩ = 6 := by
    simp [npFix]
  rw [h2, round3_exact 6 6000 (by norm_num)]
  norm_num

/-! ## Claim C7 -/

theorem exportStage_number (f : Stage) (ii : ℕ) (nf : Option ℚ) (sr : ℚ) :
    (exportStage f ii nf sr).stage_number = ii := by
  unfold exportStage
  split_ifs <;> rfl

theorem exportStage_nf (f : Stage) (ii : ℕ) (nf : Option ℚ) (sr : ℚ) :
    (exportStage f ii nf sr).normalization_frequency = nf := by
  unfold exportStage
  split_ifs <;> rfl

theorem exportStage_sr (f : Stage) (ii : ℕ) (nf : Option ℚ) (sr : ℚ) :
    (exportStage f ii nf sr).sample_rate = sr := by
  unfold exportStage
  split_ifs <;> rfl

theorem exportStage_source_coeff_noncount (f : Stage) (ii : ℕ) (nf : Option ℚ) (sr : ℚ)
    (h1 : f.ftype = FType.coefficient) (h2 : f.units_out ≠ "count") :
    (exportStage f ii nf sr).source = coefficientToPZ f := by
  simp [exportStage, stageToObspy, h1, h2]

theorem exportStage_source_coeff_count (f : Stage) (ii : ℕ) (nf : Option ℚ) (sr : ℚ)
    (h1 : f.ftype = FType.coefficient) (h2 : f.units_out = "count") :
    (exportStage f ii nf sr).source = f := by
  simp [exportStage, stageToObspy, h1, h2]

theorem exportStage_source_other (f : Stage) (ii : ℕ) (nf : Option ℚ) (sr : ℚ)
    (h1 : f.ftype ≠ FType.coefficient) :
    (exportStage f ii nf sr).source = f := by
  simp [exportStage, stageToObspy, h1]

/-- Reading one stage record out of the exported enumeration. -/
theorem get_enum_map_export (l : List Stage) (nf : Option ℚ) (sr : ℚ) (i : ℕ)
    (hi : i < l.length)
    (hi2 : i < (l.enum.map fun p => exportStage p.2 (p.1 + 1) nf sr).length) :
    (l.enum.map fun p => exportStage p.2 (p.1 + 1) nf sr).get ⟨i, hi2⟩
      = exportStage (l.get ⟨i, hi⟩) (i + 1) nf sr := by
  simp [List.get_eq_getElem, List.getElem_map, List.getElem_enum]

/-- C7: when the sensitivity computation and the normalization-frequency
read succeed on a non-empty chain, `to_obspy` succeeds; the exported stages
are numbered consecutively from 1 and each carries the shared normalization
frequency and sample rate; a coefficient-type stage with non-`"count"`
output units is exported as a pole-zero stage with equal gain, `units_in`,
`units_out`, `name` and `comments`, while a coefficient stage with
`"count"` output units — and every non-coefficient stage — is exported
unmodified. -/
theorem c7_to_obspy_export (np : NumpyEnv) (s : CRF) (sample_rate : ℚ)
    (total : RVal) (nf? : Option ℚ)
    (hsens : (s.compute_instrument_sensitivity np none).1 = Except.ok total)
    (hne : s.filters_list ≠ [])
    (hread : s.normalization_frequency_read = Except.ok nf?) :
    ∃ resp, s.to_obspy np sample_rate = Except.ok resp
      ∧ resp.response_stages.length = s.filters_list.length
      ∧ ∀ i (hi : i < s.filters_list.length) (hi2 : i < resp.response_stages.length),
          (resp.response_stages.get ⟨i, hi2⟩).stage_number = i + 1
            ∧ (resp.response_stages.get ⟨i, hi2⟩).normalization_frequency = nf?
            ∧ (resp.response_stages.get ⟨i, hi2⟩).sample_rate = sample_rate
            ∧ ((s.filters_list.get ⟨i, hi⟩).ftype = FType.coefficient →
                (s.filters_list.get ⟨i, hi⟩).units_out ≠ "count" →
                (resp.response_stages.get ⟨i, hi2⟩).source.ftype = FType.pole_zero
                  ∧ (resp.response_stages.get ⟨i, hi2⟩).source.gain
                      = (s.filters_list.get ⟨i, hi⟩).gain
                  ∧ (resp.response_stages.get ⟨i, hi2⟩).source.units_in
                      = (s.filters_list.get ⟨i, hi⟩).units_in
                  ∧ (resp.response_stages.get ⟨i, hi2⟩).source.units_out
                      = (s.filters_list.get ⟨i, hi⟩).units_out
                  ∧ (resp.response_stages.get ⟨i, hi2⟩).source.name
                      = (s.filters_list.get ⟨i, hi⟩).name
                  ∧ (resp.response_stages.get ⟨i, hi2⟩).source.comments
                      = (s.filters_list.get ⟨i, hi⟩).comments)
            ∧ ((s.filters_list.get ⟨i, hi⟩).ftype = FType.coefficient →
                (s.filters_list.get ⟨i, hi⟩).units_out = "count" →
                (resp.response_stages.get ⟨i, hi2⟩).source = s.filters_list.get ⟨i, hi⟩)
            ∧ ((s.filters_list.get ⟨i, hi⟩).ftype ≠ FType.coefficient →
                (resp.response_stages.get ⟨i, hi2⟩).source = s.filters_list.get ⟨i, hi⟩) := by
  obtain ⟨f0, rest, hchain⟩ := List.exists_cons_of_ne_nil hne
  have hin : s.units_in = Except.ok f0.units_in := by simp [CRF.units_in, hchain]
  have hout : s.units_out = Except.ok ((rest.getLastD f0).units_out) := by
    simp [CRF.units_out, hchain]
  have hobspy : s.to_obspy np sample_rate = Except.ok
      { instrument_sensitivity :=
          { value := total
            frequency := nf?
            input_units := np.unitAbbrev f0.units_in
            output_units := np.unitAbbrev ((rest.getLastD f0).units_out)
            input_units_description := np.unitName f0.units_in
            output_units_description := np.unitName ((rest.getLastD f0).units_out) }
        response_stages := s.filters_list.enum.map
          fun p => exportStage p.2 (p.1 + 1) nf? sample_rate } := by
    unfold CRF.to_obspy
    rw [hsens, hin, hout, hread]
  refine ⟨_, hobspy, ?_, ?_⟩
  · simp
  · intro i hi hi2
    rw [get_enum_map_export s.filters_list nf? sample_rate i hi hi2]
    refine ⟨exportStage_number _ _ _ _, exportStage_nf _ _ _ _, exportStage_sr _ _ _ _,
      ?_, ?_, ?_⟩
    · intro h1 h2
      rw [exportStage_source_coeff_noncount _ _ _ _ h1 h2]
      exact ⟨rfl, rfl, rfl, rfl, rfl, rfl⟩
    · intro h1 h2
      exact exportStage_source_coeff_count _ _ _ _ h1 h2
    · intro h1
      exact exportStage_source_other _ _ _ _ h1

/-- Binding a successful `Except` computation just continues. -/
theorem except_ok_bind {α β : Type} (x : α) (f : α → Except PyErr β) :
    (Except.ok x : Except PyErr α) >>= f = f x := rfl

/-- C7 witness: the export theorem applied to the concrete three-stage
chain. -/
theorem c7_to_obspy_export_witness :
    ∃ resp, crf7.to_obspy npFix 1 = Except.ok resp
      ∧ resp.response_stages.length = 3 := by
  have hsens : (crf7.compute_instrument_sensitivity npFix none).1
      = Except.ok (RVal.rscalar (round3 (npFix.npAbs cone))) := by
    simp [CRF.compute_instrument_sensitivity, repinNF, crf7, List.foldlM, npBinMul,
      cone_mul, cCoefNC, cCoefC, cPZst, stubStage, CRF.normalization_frequency_read,
      nfScalarIn, except_ok_bind]
  obtain ⟨resp, h1, h2, _⟩ := c7_to_obspy_export npFix crf7 1
    (RVal.rscalar (round3 (npFix.npAbs cone))) (some 2) hsens (by simp [crf7]) rfl
  exact ⟨resp, h1, by simpa [crf7] using h2⟩

/-! ## Claim C10 -/

/-- Storing an attribute makes it readable. -/
theorem lookupA_update_self (l : List (String × PyObj)) (k : String) (v : PyObj) :
    lookupA (updateAttr l k v) k = some v := by
  induction l with
  | nil => simp [updateAttr, lookupA, List.find?]
  | cons p tl ih =>
    by_cases h : p.1 = k
    · simp [updateAttr, h, lookupA, List.find?]
    · simpa [updateAttr, h, lookupA, List.find?] using ih

/-- Storing an attribute leaves other attributes unchanged. -/
theorem lookupA_update_other (l : List (String × PyObj)) (k k' : String) (v : PyObj)
    (h : k' ≠ k) : lookupA (updateAttr l k v) k' = lookupA l k' := by
  have hkk : ¬(k = k') := fun hh => h hh.symm
  induction l with
  | nil => simp [updateAttr, lookupA, List.find?, hkk]
  | cons p tl ih =>
    by_cases hp : p.1 = k
    · have hpk : ¬(p.1 = k') := fun hh => hkk (by rw [← hp, hh])
      simp [updateAttr, hp, lookupA, List.find?, hkk, hpk]
    · by_cases hp' : p.1 = k'
      · simp [updateAttr, hp, lookupA, List.find?, hp', h]
      · simpa [updateAttr, hp, lookupA, List.find?, hp'] using ih

/-- `setattr` with a name that is no property of the class stores a plain
attribute and cannot fail. -/
theorem setattr_unknown (s : CRF) (k : String) (v : PyObj)
    (hk : k ∉ propertyNames) :
    s.setattrCRF k v = Except.ok { s with extra := updateAttr s.extra k v } := by
  simp only [CRF.setattrCRF]
  rw [if_neg fun h => hk (by simp [propertyNames, readonlyProperties, h]),
    if_neg fun h => hk (by simp [propertyNames, readonlyProperties, h]),
    if_neg fun h => hk (by simp [propertyNames, readonlyProperties, h]),
    if_neg fun h => hk (by simp [propertyNames, h])]

/-- Folding `setattr` over keywords that name no property succeeds, leaves
the validated fields untouched, stores every keyword, and preserves other
attributes. -/
theorem init_fold_lookup (kwargs : List (String × PyObj)) :
    ∀ s : CRF, (∀ kv ∈ kwargs, kv.1 ∉ propertyNames) → (kwargs.map Prod.fst).Nodup →
      ∃ t, List.foldlM (fun s kv => CRF.setattrCRF s kv.1 kv.2) s kwargs = Except.ok t
        ∧ t.filters_list = s.filters_list
        ∧ t.frequencies = s.frequencies
        ∧ t._normalization_frequency = s._normalization_frequency
        ∧ (∀ kv ∈ kwargs, lookupAttr t kv.1 = some kv.2)
        ∧ (∀ k, k ∉ kwargs.map Prod.fst → lookupAttr t k = lookupAttr s k) := by
  induction kwargs with
  | nil =>
    intro s _ _
    exact ⟨s, rfl, rfl, rfl, rfl, by simp, fun _ _ => rfl⟩
  | cons kv tl ih =>
    intro s hkeys hnodup
    have hk : kv.1 ∉ propertyNames := hkeys kv (List.mem_cons_self _ _)
    have hknotin : kv.1 ∉ tl.map Prod.fst := by
      simp only [List.map_cons, List.nodup_cons] at hnodup
      exact hnodup.1
    obtain ⟨t, hfold, hfl, hfr, hnf, hlook, hpres⟩ :=
      ih { s with extra := updateAttr s.extra kv.1 kv.2 }
        (fun x hx => hkeys x (List.mem_cons_of_mem _ hx))
        (by simp only [List.map_cons, List.nodup_cons] at hnodup; exact hnodup.2)
    refine ⟨t, ?_, hfl, hfr, hnf, ?_, ?_⟩
    · rw [foldlM_cons_eq, setattr_unknown s kv.1 kv.2 hk]
      exact hfold
    · intro x hx
      rcases List.mem_cons.mp hx with rfl | hx'
      · rw [hpres x.1 hknotin]
        exact lookupA_update_self s.extra x.1 x.2
      · exact hlook x hx'
    · intro k hkmem
      simp only [List.map_cons, List.mem_cons] at hkmem
      push_neg at hkmem
      rw [hpres k hkmem.2]
      exact lookupA_update_other s.extra kv.1 k kv.2 hkmem.1

/-- C10 (amended): the constructor accepts arbitrary keyword arguments; for
keywords naming no property of the class at all, construction succeeds and
each value is silently stored as a plain attribute, with the defaults left
in place.  A keyword naming one of the three settable properties is routed
through that property's setter, and a keyword naming a read-only property
makes construction fail with `AttributeError` (see the counterexample), so
the original claim's "any keyword not matching a validated property is
silently stored" does not hold for read-only property names. -/
theorem c10_init_amended (np : NumpyEnv) (kwargs : List (String × PyObj))
    (hkeys : ∀ kv ∈ kwargs, kv.1 ∉ propertyNames)
    (hnodup : (kwargs.map Prod.fst).Nodup) :
    ∃ t, initCRF np kwargs = Except.ok t
      ∧ t.filters_list = []
      ∧ t.frequencies = some np.logspace_m4_4_100
      ∧ t._normalization_frequency = none
      ∧ ∀ kv ∈ kwargs, lookupAttr t kv.1 = some kv.2 := by
  obtain ⟨t, h1, h2, h3, h4, h5, _⟩ := init_fold_lookup kwargs (initState np) hkeys hnodup
  exact ⟨t, h1, by simpa [initState] using h2, by simpa [initState] using h3,
    by simpa [initState] using h4, h5⟩

/-- C10 counterexample: the keyword `pass_band` names a read-only property
— not a validated one — yet construction raises `AttributeError` instead
of silently storing the value. -/
theorem c10_counterexample_readonly_property :
    initCRF npFix [("pass_band", PyObj.pyNum 1)] = Except.error PyErr.attributeError := by
  simp [initCRF, initState, List.foldlM, CRF.setattrCRF, readonlyProperties]

/-- C10 witness: an unknown keyword `station` is accepted and silently
stored. -/
theorem c10_init_amended_witness :
    ∃ t, initCRF npFix [("station", PyObj.pyStr "mt01")] = Except.ok t
      ∧ t.filters_list = []
      ∧ lookupAttr t "station" = some (PyObj.pyStr "mt01") := by
  obtain ⟨t, h1, h2, _, _, h5⟩ := c10_init_amended npFix [("station", PyObj.pyStr "mt01")]
    (by
      intro kv hkv
      simp only [List.mem_singleton] at hkv
      subst hkv
      simp [propertyNames, readonlyProperties])
    (by simp)
  exact ⟨t, h1, h2, h5 ("station", PyObj.pyStr "mt01") (by simp)⟩
